import Mathlib

/-!
Verification of the `myx509` key/certificate generator.

The development shallowly embeds the repository's Go code:

* `x509/privkey.go` : `NewPrivateKey`, `PrivateKey.SaveToFile`,
  `LoadPrivateKeyFromFile`;
* the certificate module : `NewCertificate`, `Certificate.SaveToFile`;
* `cmd/main.go` (key+certificate CLI) and the key-only CLI.

External library calls (Go `crypto/rand`, `crypto/ecdsa`, `crypto/x509`,
`time`, `os`) are modelled at the level of their documented contracts:

* randomness sources are explicit `Option`-valued inputs (`none` models a
  failing source);
* `rand.Int(reader, max)` returns a value in `[0, max)` drawn from the
  source;
* DER encoding is modelled as an injective constructor (`DerBytes`), and the
  library parsers as its inverses, reflecting that DER marshalling followed
  by parsing reproduces the structure;
* elliptic-curve arithmetic is abstracted: the random source for key
  generation supplies the scalar `d` together with the coordinates of the
  public point standing for `d·G`;
* time is an integer count of nanoseconds; `os.WriteFile` records the
  contents and the permission mode argument in an association-list file
  system.

Go's `int64` duration arithmetic in the CLI (`time.Duration(days) * 24 *
time.Hour`) is modelled exactly, including two's-complement wrap-around.
-/

namespace Myx509

/-- Errors arising in the repository's operations (each Go error return is
mapped to one constructor). -/
inductive X509Error where
  | keyGeneration
  | serialNumber
  | certificateCreation
  | certificateParse
  | marshal
  | read
  | parse
  | write
  | derBytesNil
  deriving DecidableEq

/-- Named elliptic curves supported by Go `crypto/elliptic`; the repository
only ever generates keys on `p256` (`elliptic.P256()`). -/
inductive CurveName where
  | p224
  | p256
  | p384
  | p521
  deriving DecidableEq

/-- Model of Go `ecdsa.PublicKey`: a named curve and the point coordinates. -/
structure EcdsaPublicKey where
  curve : CurveName
  x : Nat
  y : Nat
  deriving DecidableEq

/-- Model of Go `ecdsa.PrivateKey`: the embedded public key plus the private
scalar `d` (mirroring `struct { PublicKey; D *big.Int }`). -/
structure EcdsaPrivateKey where
  publicKey : EcdsaPublicKey
  d : Nat
  deriving DecidableEq

/-- The material a successful draw from the randomness source yields during
`ecdsa.GenerateKey`: the scalar `d` and the coordinates of the public point
`d·G` (curve arithmetic is abstracted into the source). -/
structure KeyRandomness where
  d : Nat
  pubX : Nat
  pubY : Nat
  deriving DecidableEq

/-- Model of Go `ecdsa.GenerateKey(elliptic.P256(), rand.Reader)` as used by
`NewPrivateKey`: a failing source (`none`) yields an error, otherwise the key
is on curve P-256 with the supplied material. -/
def generatedKey (r : KeyRandomness) : EcdsaPrivateKey :=
  { publicKey := { curve := CurveName.p256, x := r.pubX, y := r.pubY }, d := r.d }

/-- Model of Go `rand.Int(rand.Reader, max)`: `none` models a failing
source; a successful draw is a value in `[0, max)`. -/
def randInt (src : Option Nat) (max : Nat) : Option Nat :=
  src.map (fun v => v % max)

/-- PEM-free model of Go `pkix.Name` restricted to the fields the repository
sets. -/
structure PkixName where
  commonName : String
  organization : List String
  deriving DecidableEq

/-- Extended key usages the repository uses. -/
inductive ExtKeyUsage where
  | serverAuth
  | clientAuth
  deriving DecidableEq

/-- Go `x509.KeyUsageDigitalSignature` (bit 0 of the key-usage bitmask). -/
def keyUsageDigitalSignature : Nat := 1

/-- Go `x509.KeyUsageCertSign` (bit 5 of the key-usage bitmask). -/
def keyUsageCertSign : Nat := 32

/-- IP address (Go `net.IP`), a byte sequence. -/
abbrev IPAddr := List Nat

/-- A parsed X.509 certificate (model of Go `x509.Certificate` restricted to
the fields the repository populates or reads). `signedByD` records the
private scalar of the key that produced the signature. -/
structure X509Cert where
  serialNumber : Nat
  subject : PkixName
  issuer : PkixName
  notBefore : Int
  notAfter : Int
  keyUsage : Nat
  extKeyUsage : List ExtKeyUsage
  basicConstraintsValid : Bool
  dnsNames : List String
  ipAddresses : List IPAddr
  isCA : Bool
  publicKey : EcdsaPublicKey
  signedByD : Nat
  deriving DecidableEq

/-- The certificate template the repository constructs (Go `x509.Certificate`
used as a template; only the fields `NewCertificate` sets, the rest are the
Go zero values). -/
structure CertTemplate where
  serialNumber : Nat
  subject : PkixName
  notBefore : Int
  notAfter : Int
  keyUsage : Nat
  extKeyUsage : List ExtKeyUsage
  basicConstraintsValid : Bool
  dnsNames : List String
  ipAddresses : List IPAddr
  isCA : Bool := false
  deriving DecidableEq

/-- DER-encoded bytes, modelled as an injective constructor over the encoded
structure (DER is a canonical, hence injective, encoding). -/
inductive DerBytes where
  | cert (c : X509Cert)
  | ecPrivateKey (k : EcdsaPrivateKey)
  deriving DecidableEq

/-- Model of Go `x509.CreateCertificate(rand, template, parent, pub, priv)`:
the issuer is taken from the parent's subject, the subject and remaining
fields from the template, the embedded public key is `pub`, and the
signature is produced with `priv`. -/
def createCertificate (tmpl parent : CertTemplate) (pub : EcdsaPublicKey)
    (priv : EcdsaPrivateKey) : Except X509Error DerBytes :=
  Except.ok (DerBytes.cert {
    serialNumber := tmpl.serialNumber
    subject := tmpl.subject
    issuer := parent.subject
    notBefore := tmpl.notBefore
    notAfter := tmpl.notAfter
    keyUsage := tmpl.keyUsage
    extKeyUsage := tmpl.extKeyUsage
    basicConstraintsValid := tmpl.basicConstraintsValid
    dnsNames := tmpl.dnsNames
    ipAddresses := tmpl.ipAddresses
    isCA := tmpl.isCA
    publicKey := pub
    signedByD := priv.d })

/-- Model of Go `x509.ParseCertificate`: inverse of the DER encoding. -/
def parseCertificate : DerBytes → Except X509Error X509Cert
  | DerBytes.cert c => Except.ok c
  | DerBytes.ecPrivateKey _ => Except.error X509Error.certificateParse

/-- Model of Go `x509.MarshalECPrivateKey`: succeeds for keys on the named
curves (every key in this development is on one). -/
def marshalECPrivateKey (k : EcdsaPrivateKey) : Except X509Error DerBytes :=
  Except.ok (DerBytes.ecPrivateKey k)

/-- Model of Go `x509.ParseECPrivateKey`: inverse of the DER encoding. -/
def parseECPrivateKey : DerBytes → Except X509Error EcdsaPrivateKey
  | DerBytes.ecPrivateKey k => Except.ok k
  | DerBytes.cert _ => Except.error X509Error.parse

/-- A file: its DER contents and the permission mode the write supplied. -/
structure FileEntry where
  data : DerBytes
  perm : Nat
  deriving DecidableEq

/-- The file system as an association list from paths to files; the most
recent write of a path is the first matching entry. -/
abbrev FileSystem := List (String × FileEntry)

/-- Model of Go `os.WriteFile path data perm`. -/
def writeFile (fs : FileSystem) (path : String) (data : DerBytes)
    (perm : Nat) : FileSystem :=
  (path, { data := data, perm := perm }) :: fs

/-- Look up the current contents of a path. -/
def lookupFile (fs : FileSystem) (path : String) : Option FileEntry :=
  (fs.find? (fun e => e.1 == path)).map (fun e => e.2)

/-- Model of Go `os.ReadFile`. -/
def readFile (fs : FileSystem) (path : String) : Except X509Error DerBytes :=
  match lookupFile fs path with
  | none => Except.error X509Error.read
  | some e => Except.ok e.data

/-- `PrivateKey` from `x509/privkey.go`: wraps an `ecdsa.PrivateKey`. -/
structure PrivateKey where
  key : EcdsaPrivateKey
  deriving DecidableEq

/-- `NewPrivateKey` from `x509/privkey.go`: generate an ECDSA key on
`elliptic.P256()`; a failing randomness source is a `KeyGenerationError`. -/
def NewPrivateKey (src : Option KeyRandomness) : Except X509Error PrivateKey :=
  match src with
  | none => Except.error X509Error.keyGeneration
  | some r => Except.ok { key := generatedKey r }

/-- `PrivateKey.Key` accessor from `x509/privkey.go`. -/
def PrivateKey.Key (p : PrivateKey) : EcdsaPrivateKey := p.key

/-- `PrivateKey.SaveToFile` from `x509/privkey.go`: marshal to DER, write
with permission mode `0600`. -/
def PrivateKey.SaveToFile (p : PrivateKey) (fs : FileSystem)
    (filePath : String) : Except X509Error FileSystem :=
  match marshalECPrivateKey p.key with
  | Except.error _ => Except.error X509Error.marshal
  | Except.ok der => Except.ok (writeFile fs filePath der 0o600)

/-- `LoadPrivateKeyFromFile` from `x509/privkey.go`: read the file, parse the
DER-encoded key. -/
def LoadPrivateKeyFromFile (fs : FileSystem) (filePath : String) :
    Except X509Error PrivateKey :=
  match readFile fs filePath with
  | Except.error _ => Except.error X509Error.read
  | Except.ok derData =>
    match parseECPrivateKey derData with
    | Except.error _ => Except.error X509Error.parse
    | Except.ok privKey => Except.ok { key := privKey }

/-- `Certificate` from the certificate module: the parsed certificate plus
the DER bytes (`none` models a nil Go byte slice). -/
structure Certificate where
  cert : X509Cert
  derBytes : Option DerBytes
  deriving DecidableEq

/-- The serial-number bound `new(big.Int).Lsh(big.NewInt(1), 128)`. -/
def serialNumberLimit : Nat := 2 ^ 128

/-- `NewCertificate` from the certificate module, faithfully following the
source: draw a serial below `2^128`, capture `now`, build the template
(self-signed: template is its own parent), create and re-parse the DER.
`serialSrc` is the randomness source consumed by `rand.Int`, `now` the
wall-clock time captured during the call. -/
def NewCertificate (serialSrc : Option Nat) (now : Int) (privKey : PrivateKey)
    (commonName : String) (organization : List String)
    (dnsNames : List String) (ipAddresses : List IPAddr)
    (validFor : Int) (isCA : Bool) : Except X509Error Certificate :=
  match randInt serialSrc serialNumberLimit with
  | none => Except.error X509Error.serialNumber
  | some serialNumber =>
    let template : CertTemplate := {
      serialNumber := serialNumber
      subject := { commonName := commonName, organization := organization }
      notBefore := now
      notAfter := now + validFor
      keyUsage := keyUsageDigitalSignature
      extKeyUsage := [ExtKeyUsage.serverAuth, ExtKeyUsage.clientAuth]
      basicConstraintsValid := true
      dnsNames := dnsNames
      ipAddresses := ipAddresses }
    let template :=
      if isCA then
        { template with
            isCA := true
            keyUsage := template.keyUsage ||| keyUsageCertSign }
      else template
    let pubKey := privKey.Key.publicKey
    match createCertificate template template pubKey privKey.Key with
    | Except.error _ => Except.error X509Error.certificateCreation
    | Except.ok derBytes =>
      match parseCertificate derBytes with
      | Except.error _ => Except.error X509Error.certificateParse
      | Except.ok cert => Except.ok { cert := cert, derBytes := some derBytes }

/-- `Certificate.Cert` accessor. -/
def Certificate.Cert (c : Certificate) : X509Cert := c.cert

/-- `Certificate.DERBytes` accessor. -/
def Certificate.DERBytes (c : Certificate) : Option DerBytes := c.derBytes

/-- `Certificate.SaveToFile`: guard against nil DER bytes, then write with
permission mode `0644`. -/
def Certificate.SaveToFile (c : Certificate) (fs : FileSystem)
    (filePath : String) : Except X509Error FileSystem :=
  match c.derBytes with
  | none => Except.error X509Error.derBytesNil
  | some der => Except.ok (writeFile fs filePath der 0o644)

/-- Two's-complement wrap-around of Go `int64` arithmetic
(`9223372036854775808 = 2^63`, `18446744073709551616 = 2^64`). -/
def int64Wrap (n : Int) : Int :=
  (n + 9223372036854775808) % 18446744073709551616 - 9223372036854775808

/-- Nanoseconds in Go `time.Hour`. -/
def nanosPerHour : Int := 3600 * 1000000000

/-- The CLI's `time.Duration(validityDays) * 24 * time.Hour`, evaluated in
Go `int64` (wrapping) arithmetic. -/
def cliValidFor (days : Int) : Int :=
  int64Wrap (int64Wrap (days * 24) * nanosPerHour)

/-- The scan inside Go `filepath.Ext`: walk the path backwards (the argument
list is the reversed path, `acc` the characters already passed); stop at the
last dot or at a path separator. -/
def extGo (acc : List Char) : List Char → List Char
  | [] => []
  | c :: rest =>
    if c = '.' then c :: acc
    else if c = '/' then []
    else extGo (c :: acc) rest

/-- Go `filepath.Ext`: the suffix beginning at the final dot in the final
path element; empty if there is none. -/
def filepathExt (p : String) : String :=
  String.mk (extGo [] p.data.reverse)

/-- Go `strings.TrimSuffix`: drop the trailing `sfx` if present, otherwise
return the string unchanged. -/
def stringsTrimSuffix (s sfx : String) : String :=
  if sfx.data <:+ s.data then
    String.mk (s.data.take (s.data.length - sfx.data.length))
  else s

/-- The certificate-path derivation in `cmd/main.go`: an explicitly supplied
`-cert` value wins; otherwise replace the key path's extension by `.crt`. -/
def deriveCertPath (keyPath certFlag : String) : String :=
  if certFlag = "" then
    stringsTrimSuffix keyPath (filepathExt keyPath) ++ ".crt"
  else certFlag

/-- The key+certificate CLI's flags with their source defaults. -/
structure CertCLIFlags where
  key : String := "private_key.der"
  cert : String := ""
  cn : String := "Self Signed Cert"
  org : String := "My Org"
  days : Int := 365
  deriving DecidableEq

/-- Observable CLI events: an error log, a key-generation attempt, a
certificate-generation attempt (the cryptographic operations). -/
inductive CLIEvent where
  | logError
  | keyGen
  | certGen
  deriving DecidableEq

/-- The observable outcome of a CLI run: exit code, final file system, and
the ordered event trace. -/
structure CLIOutcome where
  exitCode : Nat
  fs : FileSystem
  trace : List CLIEvent
  deriving DecidableEq

/-- The key-only CLI (`-o` flag), following its `main` line by line:
reject an empty path before any generation, else generate and save. -/
def runKeyCLI (outputFilePath : String) (keySrc : Option KeyRandomness)
    (fs0 : FileSystem) : CLIOutcome :=
  if outputFilePath = "" then
    { exitCode := 1, fs := fs0, trace := [CLIEvent.logError] }
  else
    match NewPrivateKey keySrc with
    | Except.error _ =>
      { exitCode := 1, fs := fs0, trace := [CLIEvent.keyGen, CLIEvent.logError] }
    | Except.ok privKey =>
      match privKey.SaveToFile fs0 outputFilePath with
      | Except.error _ =>
        { exitCode := 1, fs := fs0, trace := [CLIEvent.keyGen, CLIEvent.logError] }
      | Except.ok fs1 =>
        { exitCode := 0, fs := fs1, trace := [CLIEvent.keyGen] }

/-- The key+certificate CLI (`cmd/main.go`), following `main` line by line:
reject an empty key path before any generation; derive the certificate path;
generate and save the key; build the certificate with `validFor =
time.Duration(days) * 24 * time.Hour`, the `-cn`/`-org` values, no SANs and
`isCA = false`; save the certificate. -/
def runCertCLI (flags : CertCLIFlags) (keySrc : Option KeyRandomness)
    (serialSrc : Option Nat) (now : Int) (fs0 : FileSystem) : CLIOutcome :=
  if flags.key = "" then
    { exitCode := 1, fs := fs0, trace := [CLIEvent.logError] }
  else
    let certFilePath := deriveCertPath flags.key flags.cert
    match NewPrivateKey keySrc with
    | Except.error _ =>
      { exitCode := 1, fs := fs0, trace := [CLIEvent.keyGen, CLIEvent.logError] }
    | Except.ok privKey =>
      match privKey.SaveToFile fs0 flags.key with
      | Except.error _ =>
        { exitCode := 1, fs := fs0, trace := [CLIEvent.keyGen, CLIEvent.logError] }
      | Except.ok fs1 =>
        let validFor := cliValidFor flags.days
        match NewCertificate serialSrc now privKey flags.cn [flags.org]
            [] [] validFor false with
        | Except.error _ =>
          { exitCode := 1, fs := fs1,
            trace := [CLIEvent.keyGen, CLIEvent.certGen, CLIEvent.logError] }
        | Except.ok cert =>
          match cert.SaveToFile fs1 certFilePath with
          | Except.error _ =>
            { exitCode := 1, fs := fs1,
              trace := [CLIEvent.keyGen, CLIEvent.certGen, CLIEvent.logError] }
          | Except.ok fs2 =>
            { exitCode := 0, fs := fs2,
              trace := [CLIEvent.keyGen, CLIEvent.certGen] }

/-- The certificate `NewCertificate` builds from a successful serial draw
`v` (spelled out for use in equational lemmas). -/
def builtCert (v : Nat) (now : Int) (privKey : PrivateKey)
    (commonName : String) (organization : List String)
    (dnsNames : List String) (ipAddresses : List IPAddr)
    (validFor : Int) (isCA : Bool) : X509Cert :=
  { serialNumber := v % serialNumberLimit
    subject := { commonName := commonName, organization := organization }
    issuer := { commonName := commonName, organization := organization }
    notBefore := now
    notAfter := now + validFor
    keyUsage :=
      if isCA then keyUsageDigitalSignature ||| keyUsageCertSign
      else keyUsageDigitalSignature
    extKeyUsage := [ExtKeyUsage.serverAuth, ExtKeyUsage.clientAuth]
    basicConstraintsValid := true
    dnsNames := dnsNames
    ipAddresses := ipAddresses
    isCA := isCA
    publicKey := privKey.key.publicKey
    signedByD := privKey.key.d }

/-- A successful serial draw determines the whole run of `NewCertificate`. -/
theorem newCertificate_some_eq (v : Nat) (now : Int) (privKey : PrivateKey)
    (commonName : String) (organization : List String)
    (dnsNames : List String) (ipAddresses : List IPAddr)
    (validFor : Int) (isCA : Bool) :
    NewCertificate (some v) now privKey commonName organization dnsNames
        ipAddresses validFor isCA =
      Except.ok
        { cert := builtCert v now privKey commonName organization dnsNames
            ipAddresses validFor isCA
          derBytes := some (DerBytes.cert (builtCert v now privKey commonName
            organization dnsNames ipAddresses validFor isCA)) } := by
  cases isCA <;> rfl

/-- A failing serial source makes `NewCertificate` fail. -/
theorem newCertificate_none_eq (now : Int) (privKey : PrivateKey)
    (commonName : String) (organization : List String)
    (dnsNames : List String) (ipAddresses : List IPAddr)
    (validFor : Int) (isCA : Bool) :
    NewCertificate none now privKey commonName organization dnsNames
        ipAddresses validFor isCA = Except.error X509Error.serialNumber := rfl

/-- Reading a just-written path yields the written entry. -/
theorem lookupFile_writeFile (fs : FileSystem) (path : String)
    (data : DerBytes) (perm : Nat) :
    lookupFile (writeFile fs path data perm) path =
      some { data := data, perm := perm } := by
  simp [lookupFile, writeFile, List.find?]

/-- The result of `extGo` is a suffix of the scanned characters. -/
theorem extGo_suffix (r acc : List Char) : extGo acc r <:+ r.reverse ++ acc := by
  induction r generalizing acc with
  | nil => exact List.nil_suffix
  | cons c rest ih =>
    by_cases hdot : c = '.'
    · refine ⟨rest.reverse, ?_⟩
      simp [extGo, hdot]
    · by_cases hsep : c = '/'
      · simp [extGo, hdot, hsep]
      · have h2 := ih (c :: acc)
        simpa [extGo, hdot, hsep] using h2

/-- `filepath.Ext` returns a suffix of its argument. -/
theorem filepathExt_suffix (p : String) : (filepathExt p).data <:+ p.data := by
  simpa using extGo_suffix p.data.reverse []

/-- Trimming an actual suffix and re-appending it restores the string. -/
theorem stringsTrimSuffix_append (s sfx : String) (h : sfx.data <:+ s.data) :
    stringsTrimSuffix s sfx ++ sfx = s := by
  obtain ⟨t, ht⟩ := h
  apply String.ext
  rw [String.data_append]
  unfold stringsTrimSuffix
  rw [if_pos ⟨t, ht⟩]
  show (s.data.take (s.data.length - sfx.data.length)) ++ sfx.data = s.data
  rw [← ht]
  have hlen : (t ++ sfx.data).length - sfx.data.length = t.length := by
    simp
  rw [hlen, List.take_left]

/-- `int64Wrap` is the identity on the representable range. -/
theorem int64Wrap_eq_self (n : Int) (h1 : -9223372036854775808 ≤ n)
    (h2 : n < 9223372036854775808) : int64Wrap n = n := by
  unfold int64Wrap
  rw [Int.emod_eq_of_lt (by omega) (by omega)]
  omega

/-- The CLI duration computation is exact on the representable `-days`
range. -/
theorem cliValidFor_eq (days : Int) (h1 : -106751 ≤ days)
    (h2 : days ≤ 106751) : cliValidFor days = days * 24 * nanosPerHour := by
  unfold cliValidFor
  rw [int64Wrap_eq_self (days * 24) (by omega) (by omega)]
  rw [int64Wrap_eq_self]
  · unfold nanosPerHour
    omega
  · unfold nanosPerHour
    omega

/-- With an acceptable key path and working randomness, the
key+certificate CLI succeeds and its outcome is fully determined. -/
theorem runCertCLI_success_eq (flags : CertCLIFlags) (r : KeyRandomness)
    (v : Nat) (now : Int) (fs0 : FileSystem) (hk : ¬ flags.key = "") :
    runCertCLI flags (some r) (some v) now fs0 =
      { exitCode := 0
        fs := writeFile
          (writeFile fs0 flags.key (DerBytes.ecPrivateKey (generatedKey r)) 0o600)
          (deriveCertPath flags.key flags.cert)
          (DerBytes.cert (builtCert v now { key := generatedKey r } flags.cn
            [flags.org] [] [] (cliValidFor flags.days) false))
          0o644
        trace := [CLIEvent.keyGen, CLIEvent.certGen] } := by
  unfold runCertCLI
  rw [if_neg hk]
  rfl

/-- Claim C1: every certificate produced by `NewCertificate` is self-signed:
its issuer fields equal its subject fields, its signature was produced with
the supplied private key, and the public key embedded in the certificate is
the public component of that private key. -/
theorem claim1_newCertificate_selfSigned (serialSrc : Option Nat) (now : Int)
    (privKey : PrivateKey) (commonName : String) (organization : List String)
    (dnsNames : List String) (ipAddresses : List IPAddr) (validFor : Int)
    (isCA : Bool) (c : Certificate)
    (h : NewCertificate serialSrc now privKey commonName organization dnsNames
      ipAddresses validFor isCA = Except.ok c) :
    c.cert.issuer = c.cert.subject ∧ c.cert.signedByD = privKey.key.d ∧
      c.cert.publicKey = privKey.key.publicKey := by
  cases serialSrc with
  | none =>
    rw [newCertificate_none_eq] at h
    exact Except.noConfusion h
  | some v =>
    rw [newCertificate_some_eq] at h
    injection h with h
    subst h
    exact ⟨rfl, rfl, rfl⟩

/-- Witness for C1 at a concrete key, serial draw and parameters. -/
theorem claim1_witness :
    ∃ c, NewCertificate (some 5) 1000
        { key := { publicKey := { curve := CurveName.p256, x := 2, y := 3 },
                   d := 7 } }
        "example.com" ["Example"] [] [] 100 false = Except.ok c ∧
      (c.cert.issuer = c.cert.subject ∧ c.cert.signedByD = 7 ∧
        c.cert.publicKey = { curve := CurveName.p256, x := 2, y := 3 }) :=
  ⟨_, rfl, claim1_newCertificate_selfSigned (some 5) 1000
    { key := { publicKey := { curve := CurveName.p256, x := 2, y := 3 },
               d := 7 } }
    "example.com" ["Example"] [] [] 100 false _ rfl⟩

/-- Claim C2 counterexample: with `-days 200000` the CLI duration expression
`time.Duration(days) * 24 * time.Hour` overflows `int64`, so `validFor` is
not the `-days` value times 24 hours. -/
theorem claim2_counterexample :
    cliValidFor 200000 ≠ 200000 * 24 * nanosPerHour := by decide

/-- Claim C2 (amended): for every successful `NewCertificate` call the
not-before is the captured time, the not-after is that time plus `validFor`,
so their difference is exactly `validFor`; the CLI's `validFor` is the
`-days` value times 24 hours whenever that product is representable in the
CLI's 64-bit signed duration arithmetic (in particular for all
`|days| ≤ 106751`); beyond that range it wraps modulo `2^64`. -/
theorem claim2_newCertificate_validity (serialSrc : Option Nat) (now : Int)
    (privKey : PrivateKey) (commonName : String) (organization : List String)
    (dnsNames : List String) (ipAddresses : List IPAddr) (validFor : Int)
    (isCA : Bool) (c : Certificate) (days : Int)
    (h : NewCertificate serialSrc now privKey commonName organization dnsNames
      ipAddresses validFor isCA = Except.ok c)
    (hd1 : -106751 ≤ days) (hd2 : days ≤ 106751) :
    c.cert.notBefore = now ∧ c.cert.notAfter = now + validFor ∧
      c.cert.notAfter - c.cert.notBefore = validFor ∧
      cliValidFor days = days * 24 * nanosPerHour := by
  cases serialSrc with
  | none =>
    rw [newCertificate_none_eq] at h
    exact Except.noConfusion h
  | some v =>
    rw [newCertificate_some_eq] at h
    injection h with h
    subst h
    refine ⟨rfl, rfl, ?_, cliValidFor_eq days hd1 hd2⟩
    show now + validFor - now = validFor
    omega

/-- Witness for C2 at a concrete serial draw, time, key and `-days 30`. -/
theorem claim2_witness :
    ∃ c, NewCertificate (some 5) 1000
        { key := { publicKey := { curve := CurveName.p256, x := 2, y := 3 },
                   d := 7 } }
        "example.com" ["Example"] [] [] 100 false = Except.ok c ∧
      (c.cert.notBefore = 1000 ∧ c.cert.notAfter = 1000 + 100 ∧
        c.cert.notAfter - c.cert.notBefore = 100 ∧
        cliValidFor 30 = 30 * 24 * nanosPerHour) :=
  ⟨_, rfl, claim2_newCertificate_validity (some 5) 1000
    { key := { publicKey := { curve := CurveName.p256, x := 2, y := 3 },
               d := 7 } }
    "example.com" ["Example"] [] [] 100 false _ 30 rfl
    (by norm_num) (by norm_num)⟩

/-- Claim C3 counterexample: the serial number need not be positive — a
source draw of `0` yields a successfully issued certificate whose serial
number is `0`. -/
theorem claim3_counterexample :
    ∃ c, NewCertificate (some 0) 0
        { key := { publicKey := { curve := CurveName.p256, x := 4, y := 5 },
                   d := 9 } }
        "a" ["o"] [] [] 100 false = Except.ok c ∧
      c.cert.serialNumber = 0 ∧ ¬ 0 < c.cert.serialNumber :=
  ⟨_, rfl, rfl, by decide⟩

/-- Claim C3 (amended): the serial number of every successfully issued
certificate is a nonnegative integer below `2^128`, every value of that
range is attainable, and a failing random source makes `NewCertificate`
return `SerialNumberError` and no certificate. -/
theorem claim3_newCertificate_serial (serialSrc : Option Nat) (now : Int)
    (privKey : PrivateKey) (commonName : String) (organization : List String)
    (dnsNames : List String) (ipAddresses : List IPAddr) (validFor : Int)
    (isCA : Bool) (c : Certificate) (s : Nat)
    (h : NewCertificate serialSrc now privKey commonName organization dnsNames
      ipAddresses validFor isCA = Except.ok c)
    (hs : s < serialNumberLimit) :
    c.cert.serialNumber < serialNumberLimit ∧
      NewCertificate none now privKey commonName organization dnsNames
        ipAddresses validFor isCA = Except.error X509Error.serialNumber ∧
      ∃ c', NewCertificate (some s) now privKey commonName organization
          dnsNames ipAddresses validFor isCA = Except.ok c' ∧
        c'.cert.serialNumber = s := by
  refine ⟨?_, newCertificate_none_eq now privKey commonName organization
    dnsNames ipAddresses validFor isCA, ?_⟩
  · cases serialSrc with
    | none =>
      rw [newCertificate_none_eq] at h
      exact Except.noConfusion h
    | some v =>
      rw [newCertificate_some_eq] at h
      injection h with h
      subst h
      show v % serialNumberLimit < serialNumberLimit
      exact Nat.mod_lt _ (by norm_num [serialNumberLimit])
  · refine ⟨_, newCertificate_some_eq s now privKey commonName organization
      dnsNames ipAddresses validFor isCA, ?_⟩
    show s % serialNumberLimit = s
    exact Nat.mod_eq_of_lt hs

/-- Witness for C3 at a concrete serial draw and target serial `12`. -/
theorem claim3_witness :
    ∃ c, NewCertificate (some 5) 1000
        { key := { publicKey := { curve := CurveName.p256, x := 2, y := 3 },
                   d := 7 } }
        "example.com" ["Example"] [] [] 100 false = Except.ok c ∧
      (c.cert.serialNumber < serialNumberLimit ∧
        NewCertificate none 1000
          { key := { publicKey := { curve := CurveName.p256, x := 2, y := 3 },
                     d := 7 } }
          "example.com" ["Example"] [] [] 100 false =
            Except.error X509Error.serialNumber ∧
        ∃ c', NewCertificate (some 12) 1000
            { key := { publicKey := { curve := CurveName.p256, x := 2, y := 3 },
                       d := 7 } }
            "example.com" ["Example"] [] [] 100 false = Except.ok c' ∧
          c'.cert.serialNumber = 12) :=
  ⟨_, rfl, claim3_newCertificate_serial (some 5) 1000
    { key := { publicKey := { curve := CurveName.p256, x := 2, y := 3 },
               d := 7 } }
    "example.com" ["Example"] [] [] 100 false _ 12 rfl
    (by norm_num [serialNumberLimit])⟩

/-- Claim C4: every certificate built by `NewCertificate` has
digital-signature in its key usage; it has certificate-signing in its key
usage and the CA flag set exactly when `isCA` is true; its extended key
usage is always server authentication followed by client authentication;
and its basic constraints are marked valid. -/
theorem claim4_newCertificate_usage (serialSrc : Option Nat) (now : Int)
    (privKey : PrivateKey) (commonName : String) (organization : List String)
    (dnsNames : List String) (ipAddresses : List IPAddr) (validFor : Int)
    (isCA : Bool) (c : Certificate)
    (h : NewCertificate serialSrc now privKey commonName organization dnsNames
      ipAddresses validFor isCA = Except.ok c) :
    c.cert.keyUsage &&& keyUsageDigitalSignature ≠ 0 ∧
      (c.cert.keyUsage &&& keyUsageCertSign ≠ 0 ↔ isCA = true) ∧
      c.cert.isCA = isCA ∧
      c.cert.extKeyUsage = [ExtKeyUsage.serverAuth, ExtKeyUsage.clientAuth] ∧
      c.cert.basicConstraintsValid = true := by
  cases serialSrc with
  | none =>
    rw [newCertificate_none_eq] at h
    exact Except.noConfusion h
  | some v =>
    rw [newCertificate_some_eq] at h
    injection h with h
    subst h
    cases isCA with
    | false =>
      refine ⟨?_, ?_, rfl, rfl, rfl⟩
      · show keyUsageDigitalSignature &&& keyUsageDigitalSignature ≠ 0
        decide
      · show keyUsageDigitalSignature &&& keyUsageCertSign ≠ 0 ↔ false = true
        decide
    | true =>
      refine ⟨?_, ?_, rfl, rfl, rfl⟩
      · show (keyUsageDigitalSignature ||| keyUsageCertSign) &&&
          keyUsageDigitalSignature ≠ 0
        decide
      · show (keyUsageDigitalSignature ||| keyUsageCertSign) &&&
          keyUsageCertSign ≠ 0 ↔ true = true
        decide

/-- Witness for C4 with `isCA = true` (and the serial draw concrete). -/
theorem claim4_witness :
    ∃ c, NewCertificate (some 5) 1000
        { key := { publicKey := { curve := CurveName.p256, x := 2, y := 3 },
                   d := 7 } }
        "example.com" ["Example"] [] [] 100 true = Except.ok c ∧
      (c.cert.keyUsage &&& keyUsageDigitalSignature ≠ 0 ∧
        (c.cert.keyUsage &&& keyUsageCertSign ≠ 0 ↔ true = true) ∧
        c.cert.isCA = true ∧
        c.cert.extKeyUsage = [ExtKeyUsage.serverAuth, ExtKeyUsage.clientAuth] ∧
        c.cert.basicConstraintsValid = true) :=
  ⟨_, rfl, claim4_newCertificate_usage (some 5) 1000
    { key := { publicKey := { curve := CurveName.p256, x := 2, y := 3 },
               d := 7 } }
    "example.com" ["Example"] [] [] 100 true _ rfl⟩

/-- Claim C5: saving a generated private key and loading the file back
yields a key on NIST P-256 whose public component equals the original key's
public component. -/
theorem claim5_save_load_roundtrip (src : Option KeyRandomness)
    (k : PrivateKey) (fs fs' : FileSystem) (path : String)
    (hgen : NewPrivateKey src = Except.ok k)
    (hsave : k.SaveToFile fs path = Except.ok fs') :
    ∃ k', LoadPrivateKeyFromFile fs' path = Except.ok k' ∧
      k'.key.publicKey.curve = CurveName.p256 ∧
      k'.key.publicKey = k.key.publicKey := by
  cases src with
  | none => exact Except.noConfusion hgen
  | some r =>
    injection hgen with hgen
    subst hgen
    injection hsave with hsave
    subst hsave
    refine ⟨_, ?_, rfl, rfl⟩
    unfold LoadPrivateKeyFromFile readFile
    rw [lookupFile_writeFile]
    rfl

/-- Witness for C5 at concrete key material, path and empty file system. -/
theorem claim5_witness :
    ∃ k', LoadPrivateKeyFromFile
        (writeFile [] "key.der"
          (DerBytes.ecPrivateKey (generatedKey { d := 7, pubX := 2, pubY := 3 }))
          0o600)
        "key.der" = Except.ok k' ∧
      k'.key.publicKey.curve = CurveName.p256 ∧
      k'.key.publicKey =
        ({ key := generatedKey { d := 7, pubX := 2, pubY := 3 } } :
          PrivateKey).key.publicKey :=
  claim5_save_load_roundtrip (some { d := 7, pubX := 2, pubY := 3 }) _ [] _
    "key.der" rfl rfl

/-- Claim C7: a successful private-key save leaves the key file written with
permission mode `0600`, and a successful certificate save leaves the
certificate file written with permission mode `0644`. -/
theorem claim7_permissions (k : PrivateKey) (fs : FileSystem) (path : String)
    (fs' : FileSystem) (c : Certificate) (fs2 : FileSystem) (path2 : String)
    (fs2' : FileSystem)
    (h1 : k.SaveToFile fs path = Except.ok fs')
    (h2 : c.SaveToFile fs2 path2 = Except.ok fs2') :
    (∃ d, lookupFile fs' path = some { data := d, perm := 0o600 }) ∧
      ∃ d, lookupFile fs2' path2 = some { data := d, perm := 0o644 } := by
  constructor
  · injection h1 with h1
    subst h1
    exact ⟨_, lookupFile_writeFile _ _ _ _⟩
  · cases hder : c.derBytes with
    | none =>
      unfold Certificate.SaveToFile at h2
      rw [hder] at h2
      exact Except.noConfusion h2
    | some der =>
      unfold Certificate.SaveToFile at h2
      rw [hder] at h2
      injection h2 with h2
      subst h2
      exact ⟨_, lookupFile_writeFile _ _ _ _⟩

/-- Witness for C7 at a concrete key, certificate and paths. -/
theorem claim7_witness :
    (∃ d, lookupFile
        (writeFile [] "key.der"
          (DerBytes.ecPrivateKey (generatedKey { d := 7, pubX := 2, pubY := 3 }))
          0o600)
        "key.der" = some { data := d, perm := 0o600 }) ∧
      ∃ d, lookupFile
        (writeFile [] "cert.crt"
          (DerBytes.cert (builtCert 5 0
            { key := generatedKey { d := 7, pubX := 2, pubY := 3 } }
            "a" ["o"] [] [] 100 false))
          0o644)
        "cert.crt" = some { data := d, perm := 0o644 } :=
  claim7_permissions { key := generatedKey { d := 7, pubX := 2, pubY := 3 } }
    [] "key.der" _
    { cert := builtCert 5 0
        { key := generatedKey { d := 7, pubX := 2, pubY := 3 } }
        "a" ["o"] [] [] 100 false
      derBytes := some (DerBytes.cert (builtCert 5 0
        { key := generatedKey { d := 7, pubX := 2, pubY := 3 } }
        "a" ["o"] [] [] 100 false)) }
    [] "cert.crt" _ rfl rfl

/-- Claim C9: every certificate `NewCertificate` returns stores DER bytes,
and parsing those bytes reproduces exactly the stored structured
certificate; `Certificate.SaveToFile` returns the nil-DER precondition error
(writing nothing) when the DER bytes are absent. -/
theorem claim9_der_consistency (serialSrc : Option Nat) (now : Int)
    (privKey : PrivateKey) (commonName : String) (organization : List String)
    (dnsNames : List String) (ipAddresses : List IPAddr) (validFor : Int)
    (isCA : Bool) (c : Certificate) (c0 : X509Cert) (fs : FileSystem)
    (path : String)
    (h : NewCertificate serialSrc now privKey commonName organization dnsNames
      ipAddresses validFor isCA = Except.ok c) :
    (∃ der, c.derBytes = some der ∧ parseCertificate der = Except.ok c.cert) ∧
      Certificate.SaveToFile { cert := c0, derBytes := none } fs path =
        Except.error X509Error.derBytesNil := by
  refine ⟨?_, rfl⟩
  cases serialSrc with
  | none =>
    rw [newCertificate_none_eq] at h
    exact Except.noConfusion h
  | some v =>
    rw [newCertificate_some_eq] at h
    injection h with h
    subst h
    exact ⟨_, rfl, rfl⟩

/-- Witness for C9 at a concrete certificate issuance and save attempt. -/
theorem claim9_witness :
    (∃ der,
        (Certificate.mk (builtCert 5 1000
            { key := { publicKey := { curve := CurveName.p256, x := 2, y := 3 },
                       d := 7 } }
            "example.com" ["Example"] [] [] 100 false)
          (some (DerBytes.cert (builtCert 5 1000
            { key := { publicKey := { curve := CurveName.p256, x := 2, y := 3 },
                       d := 7 } }
            "example.com" ["Example"] [] [] 100 false)))).derBytes = some der ∧
        parseCertificate der = Except.ok (builtCert 5 1000
          { key := { publicKey := { curve := CurveName.p256, x := 2, y := 3 },
                     d := 7 } }
          "example.com" ["Example"] [] [] 100 false)) ∧
      Certificate.SaveToFile
        { cert := builtCert 5 1000
            { key := { publicKey := { curve := CurveName.p256, x := 2, y := 3 },
                       d := 7 } }
            "example.com" ["Example"] [] [] 100 false
          derBytes := none } [] "out.crt" =
        Except.error X509Error.derBytesNil :=
  claim9_der_consistency (some 5) 1000
    { key := { publicKey := { curve := CurveName.p256, x := 2, y := 3 },
               d := 7 } }
    "example.com" ["Example"] [] [] 100 false _ _ [] "out.crt"
    (newCertificate_some_eq 5 1000
      { key := { publicKey := { curve := CurveName.p256, x := 2, y := 3 },
                 d := 7 } }
      "example.com" ["Example"] [] [] 100 false)

/-- With an acceptable key path but a failing key-generation source, the
key+certificate CLI exits with status 1 leaving the file system unchanged. -/
theorem runCertCLI_keyFail_eq (flags : CertCLIFlags) (serialSrc : Option Nat)
    (now : Int) (fs0 : FileSystem) (hk : ¬ flags.key = "") :
    runCertCLI flags none serialSrc now fs0 =
      { exitCode := 1, fs := fs0,
        trace := [CLIEvent.keyGen, CLIEvent.logError] } := by
  unfold runCertCLI
  rw [if_neg hk]
  rfl

/-- With an acceptable key path and a working key source but a failing
serial source, the key+certificate CLI exits with status 1 after saving only
the key. -/
theorem runCertCLI_serialFail_eq (flags : CertCLIFlags) (r : KeyRandomness)
    (now : Int) (fs0 : FileSystem) (hk : ¬ flags.key = "") :
    runCertCLI flags (some r) none now fs0 =
      { exitCode := 1
        fs := writeFile fs0 flags.key
          (DerBytes.ecPrivateKey (generatedKey r)) 0o600
        trace := [CLIEvent.keyGen, CLIEvent.certGen, CLIEvent.logError] } := by
  unfold runCertCLI
  rw [if_neg hk]
  rfl

/-- Claim C6: in the key+certificate CLI, when `-cert` is not supplied the
certificate is written at the path obtained from the key path by replacing
its extension with `.crt`, and the certificate's common name and
single-element organization sequence are the `-cn` and `-org` values. -/
theorem claim6_default_path_and_subject (flags : CertCLIFlags)
    (keySrc : Option KeyRandomness) (serialSrc : Option Nat) (now : Int)
    (fs0 : FileSystem) (hcert : flags.cert = "")
    (hrun : (runCertCLI flags keySrc serialSrc now fs0).exitCode = 0) :
    deriveCertPath flags.key flags.cert =
        stringsTrimSuffix flags.key (filepathExt flags.key) ++ ".crt" ∧
      ∃ c, lookupFile (runCertCLI flags keySrc serialSrc now fs0).fs
          (deriveCertPath flags.key flags.cert) =
          some { data := DerBytes.cert c, perm := 0o644 } ∧
        c.subject.commonName = flags.cn ∧
        c.subject.organization = [flags.org] := by
  by_cases hk : flags.key = ""
  · exfalso
    unfold runCertCLI at hrun
    rw [if_pos hk] at hrun
    simp at hrun
  · refine ⟨by simp [deriveCertPath, hcert], ?_⟩
    cases keySrc with
    | none =>
      rw [runCertCLI_keyFail_eq _ _ _ _ hk] at hrun
      simp at hrun
    | some r =>
      cases serialSrc with
      | none =>
        rw [runCertCLI_serialFail_eq _ _ _ _ hk] at hrun
        simp at hrun
      | some v =>
        rw [runCertCLI_success_eq _ _ _ _ _ hk]
        exact ⟨_, lookupFile_writeFile _ _ _ _, rfl, rfl⟩

/-- Witness for C6: `-key out.key -cn example.com -org Example -days 30`
with no `-cert` writes the certificate at `out.crt`. -/
theorem claim6_witness :
    (deriveCertPath "out.key" "" =
        stringsTrimSuffix "out.key" (filepathExt "out.key") ++ ".crt" ∧
      ∃ c, lookupFile (runCertCLI
          { key := "out.key", cert := "", cn := "example.com",
            org := "Example", days := 30 }
          (some { d := 7, pubX := 2, pubY := 3 }) (some 5) 0 []).fs
          (deriveCertPath "out.key" "") =
          some { data := DerBytes.cert c, perm := 0o644 } ∧
        c.subject.commonName = "example.com" ∧
        c.subject.organization = ["Example"]) ∧
      deriveCertPath "out.key" "" = "out.crt" :=
  ⟨claim6_default_path_and_subject
      { key := "out.key", cert := "", cn := "example.com",
        org := "Example", days := 30 }
      (some { d := 7, pubX := 2, pubY := 3 }) (some 5) 0 [] rfl rfl,
    by decide⟩

/-- Claim C8: both CLIs, given an empty output path, exit with status 1,
emit an error message, and attempt no key generation or other cryptographic
operation: the trace holds the error log alone and the file system is
untouched. -/
theorem claim8_empty_path_exits (flags : CertCLIFlags)
    (keySrc : Option KeyRandomness) (serialSrc : Option Nat) (now : Int)
    (fs0 : FileSystem) (o : String) (keySrc2 : Option KeyRandomness)
    (fs1 : FileSystem) (h1 : flags.key = "") (h2 : o = "") :
    runCertCLI flags keySrc serialSrc now fs0 =
        { exitCode := 1, fs := fs0, trace := [CLIEvent.logError] } ∧
      runKeyCLI o keySrc2 fs1 =
        { exitCode := 1, fs := fs1, trace := [CLIEvent.logError] } := by
  constructor
  · unfold runCertCLI
    rw [if_pos h1]
  · unfold runKeyCLI
    rw [if_pos h2]

/-- Witness for C8 at concrete empty-path invocations of both CLIs. -/
theorem claim8_witness :
    runCertCLI { key := "" } (some { d := 7, pubX := 2, pubY := 3 }) (some 5)
        0 [] = { exitCode := 1, fs := [], trace := [CLIEvent.logError] } ∧
      runKeyCLI "" (some { d := 7, pubX := 2, pubY := 3 }) [] =
        { exitCode := 1, fs := [], trace := [CLIEvent.logError] } :=
  claim8_empty_path_exits { key := "" } (some { d := 7, pubX := 2, pubY := 3 })
    (some 5) 0 [] "" (some { d := 7, pubX := 2, pubY := 3 }) [] rfl rfl

/-- Claim C10: in the key+certificate CLI, when the key path itself ends in
the extension `.crt` and no `-cert` is supplied, the derived certificate
path equals the key path, so the certificate save overwrites the just
written private-key file: after a successful run, the key path holds the
certificate DER. -/
theorem claim10_crt_key_overwrite (flags : CertCLIFlags)
    (keySrc : Option KeyRandomness) (serialSrc : Option Nat) (now : Int)
    (fs0 : FileSystem) (hext : filepathExt flags.key = ".crt")
    (hcert : flags.cert = "")
    (hrun : (runCertCLI flags keySrc serialSrc now fs0).exitCode = 0) :
    deriveCertPath flags.key flags.cert = flags.key ∧
      ∃ c, lookupFile (runCertCLI flags keySrc serialSrc now fs0).fs
          flags.key = some { data := DerBytes.cert c, perm := 0o644 } := by
  have hpath : deriveCertPath flags.key flags.cert = flags.key := by
    rw [hcert]
    unfold deriveCertPath
    rw [if_pos rfl, ← hext]
    exact stringsTrimSuffix_append _ _ (filepathExt_suffix _)
  refine ⟨hpath, ?_⟩
  by_cases hk : flags.key = ""
  · exfalso
    unfold runCertCLI at hrun
    rw [if_pos hk] at hrun
    simp at hrun
  · cases keySrc with
    | none =>
      rw [runCertCLI_keyFail_eq _ _ _ _ hk] at hrun
      simp at hrun
    | some r =>
      cases serialSrc with
      | none =>
        rw [runCertCLI_serialFail_eq _ _ _ _ hk] at hrun
        simp at hrun
      | some v =>
        rw [runCertCLI_success_eq _ _ _ _ _ hk, hpath]
        exact ⟨_, lookupFile_writeFile _ _ _ _⟩

/-- Witness for C10 at the concrete key path `server.crt`. -/
theorem claim10_witness :
    deriveCertPath "server.crt" "" = "server.crt" ∧
      ∃ c, lookupFile (runCertCLI
          { key := "server.crt", cert := "", cn := "a", org := "o",
            days := 365 }
          (some { d := 7, pubX := 2, pubY := 3 }) (some 5) 0 []).fs
          "server.crt" = some { data := DerBytes.cert c, perm := 0o644 } :=
  claim10_crt_key_overwrite
    { key := "server.crt", cert := "", cn := "a", org := "o", days := 365 }
    (some { d := 7, pubX := 2, pubY := 3 }) (some 5) 0 [] (by decide) rfl rfl

end Myx509
